import Mathlib

/-!
Shallow embedding of the ai-scaffold user/auth core: the gateway auth module
(`services/gateway_service/app/auth.py`), the user repository
(`services/user_service/app/repository.py` and `models.py`), the user gRPC
service (`services/user_service/app/grpc_service.py`), the gateway user-service
client (`services/gateway_service/app/user_client.py`) and the administrative
delete route (`services/gateway_service/app/routers/users.py`).

Time is modelled in seconds as a natural number; bcrypt hashes are modelled as
a record of the hashed password and its salt, so that verification succeeds
exactly when the password matches (the salted-adaptive-hash contract), and two
hashes of the same password with different salts differ.
-/

/-- Gateway settings relevant to the auth module: the JWT shared secret and the
token TTL in minutes (`JWT_SECRET_KEY`, `JWT_EXPIRE_MINUTES`). -/
structure Settings where
  secret : String
  expireMinutes : Nat
deriving Repr, DecidableEq

/-- JWT payload claims: `sub`, `email`, `exp` (each absent or present), as the
dict passed to `jwt.encode` / returned by `jwt.decode`. -/
structure Payload where
  sub : Option String
  email : Option String
  exp : Option Nat
deriving Repr, DecidableEq

/-- Model of a signed JWT: the payload plus the key it was signed with;
signature verification is key equality. -/
structure Jwt where
  payload : Payload
  key : String
deriving Repr, DecidableEq

/-- Model of fastapi.HTTPException: status code and detail. -/
structure HTTPError where
  status : Nat
  detail : String
deriving Repr, DecidableEq

/-- TokenData from `auth.py`: optional user_id and email. -/
structure TokenData where
  user_id : Option String
  email : Option String
deriving Repr, DecidableEq

/-- AuthUser from `auth.py`: the authenticated identity. -/
structure AuthUser where
  id : String
  email : String
  name : String
deriving Repr, DecidableEq

/-- Model of `jose.jwt.decode(token, key, algorithms)`: fails (JWTError) when the
signature does not verify (wrong key) or when the `exp` claim is in the past
(`exp < now`, zero leeway); otherwise returns the payload. -/
def jwtDecode (tok : Jwt) (key : String) (now : Nat) : Except Unit Payload :=
  if tok.key ≠ key then .error ()
  else
    match tok.payload.exp with
    | some e => if e < now then .error () else .ok tok.payload
    | none => .ok tok.payload

/-- Embeds `create_access_token(data, expires_delta)` from `auth.py`: copies the
claim dict and overwrites `exp` with now + expires_delta (or now + TTL minutes
when no delta is given), then signs with the configured secret. -/
def create_access_token (s : Settings) (data : Payload) (now : Nat)
    (expires_delta : Option Nat) : Jwt :=
  let expire : Nat :=
    match expires_delta with
    | some d => now + d
    | none => now + s.expireMinutes * 60
  { payload := { data with exp := some expire }, key := s.secret }

/-- credentials_exception raised by `verify_token`. -/
def credentials_exception : HTTPError :=
  { status := 401, detail := "Could not validate credentials" }

/-- Embeds `verify_token(token)` from `auth.py`: decode with the configured
secret; any JWTError (bad signature, expired) raises the 401
credentials_exception; a payload whose `sub` is `None` raises the same 401;
otherwise TokenData(user_id=sub, email=email) is returned. -/
def verify_token (s : Settings) (tok : Jwt) (now : Nat) : Except HTTPError TokenData :=
  match jwtDecode tok s.secret now with
  | .error _ => .error credentials_exception
  | .ok payload =>
    match payload.sub with
    | none => .error credentials_exception
    | some uid => .ok { user_id := some uid, email := payload.email }

/-- C1. Token round-trip: issuing a token with claims {sub: U, email: E} and
verifying it at any time up to the expiry instant yields TokenData with
user_id = U and email = E; verifying strictly after the TTL has elapsed fails
with the 401 Unauthenticated credentials exception. -/
theorem token_roundtrip (s : Settings) (U E : String) (now ttl t : Nat) :
    (t ≤ now + ttl →
      verify_token s
        (create_access_token s { sub := some U, email := some E, exp := none } now (some ttl)) t
        = .ok { user_id := some U, email := some E })
    ∧ (now + ttl < t →
      verify_token s
        (create_access_token s { sub := some U, email := some E, exp := none } now (some ttl)) t
        = .error credentials_exception) := by
  constructor
  · intro h
    simp [verify_token, create_access_token, jwtDecode, Nat.not_lt.mpr h]
  · intro h
    simp [verify_token, create_access_token, jwtDecode, h]

/-- C3 counterexample: a token whose `sub` claim is the empty string, with valid
signature and unexpired `exp`, is accepted by verify_token (it returns TokenData
with user_id = ""), instead of failing with a 401 error as the claim states. -/
theorem verify_token_empty_sub_cex :
    verify_token { secret := "k", expireMinutes := 30 }
      { payload := { sub := some "", email := some "x@y", exp := some 100 }, key := "k" } 0
      = .ok { user_id := some "", email := some "x@y" } := by
  rfl

/-- C3 amended: on a token with valid signature and unexpired `exp`,
verify_token fails with the 401 credentials exception exactly when the `sub`
claim is absent; when `sub` is present — even as the empty string — it returns
TokenData with user_id equal to that `sub` value (an empty subject is only
rejected later, by get_current_user). -/
theorem verify_token_sub_handling (s : Settings) (em : Option String) (e now : Nat)
    (h : now ≤ e) :
    verify_token s { payload := { sub := none, email := em, exp := some e }, key := s.secret } now
      = .error credentials_exception
    ∧ ∀ u : String,
      verify_token s { payload := { sub := some u, email := em, exp := some e }, key := s.secret }
        now = .ok { user_id := some u, email := em } := by
  constructor
  · simp [verify_token, jwtDecode, Nat.not_lt.mpr h]
  · intro u
    simp [verify_token, jwtDecode, Nat.not_lt.mpr h]

/-- C3 amended witness: at secret "k", email "x@y", expiry 100, time 0, a token
without `sub` is rejected with 401 and a token with `sub` = "u1" is accepted. -/
theorem verify_token_sub_handling_witness :
    verify_token { secret := "k", expireMinutes := 30 }
      { payload := { sub := none, email := some "x@y", exp := some 100 }, key := "k" } 0
      = .error credentials_exception
    ∧ ∀ u : String,
      verify_token { secret := "k", expireMinutes := 30 }
        { payload := { sub := some u, email := some "x@y", exp := some 100 }, key := "k" } 0
        = .ok { user_id := some u, email := some "x@y" } :=
  verify_token_sub_handling { secret := "k", expireMinutes := 30 } (some "x@y") 100 0
    (by decide)

/-- Model of a bcrypt hash (`passlib` CryptContext with the bcrypt scheme): the
hashed password together with its random salt. Verification compares the
password against the one recorded in the hash; distinct salts give distinct
hashes of the same password. -/
structure BcryptHash where
  pw : String
  salt : Nat
deriving Repr, DecidableEq

/-- User row of the `users` table (`models.py`): string primary key id, name,
email (unique), nullable password hash, timestamps (`updated_at` nullable,
set by the store on update). -/
structure User where
  id : String
  name : String
  email : String
  password_hash : Option BcryptHash
  created_at : Nat
  updated_at : Option Nat
deriving Repr, DecidableEq

/-- Embeds `User.has_password`: the password hash is not NULL. -/
def User.has_password (u : User) : Bool :=
  u.password_hash.isSome

/-- Embeds `User.verify_password`: false when no hash is stored, otherwise
bcrypt verification of the password against the stored hash. -/
def User.verify_password (u : User) (password : String) : Bool :=
  match u.password_hash with
  | none => false
  | some h => h.pw == password

/-- Embeds `User.set_password` applied to a row: stores a fresh bcrypt hash of
the password (with the salt drawn for this call). -/
def User.set_password (u : User) (password : String) (salt : Nat) : User :=
  { u with password_hash := some { pw := password, salt := salt } }

/-- Database state: the rows of the `users` table in store-default order. -/
abbrev Store := List User

/-- Replaces the first row matching the id with its image under f, as mutating
the single ORM object returned by a primary-key query and committing does. -/
def updateFirst : Store → String → (User → User) → Store
  | [], _, _ => []
  | u :: rest, uid, f =>
    if u.id == uid then f u :: rest else u :: updateFirst rest uid f

namespace UserRepository

/-- Embeds `UserRepository.get_by_id`: first row whose id matches, or absence. -/
def get_by_id (store : Store) (user_id : String) : Option User :=
  store.find? (fun u => u.id == user_id)

/-- Embeds `UserRepository.get_by_email`: first row whose email matches
(case-sensitive), or absence. -/
def get_by_email (store : Store) (email : String) : Option User :=
  store.find? (fun u => u.email == email)

/-- Embeds `UserRepository.create`: inserts a row with a generated id and
creation timestamp and no password; a uniqueness violation on commit
(duplicate email, or duplicate primary key) rolls the transaction back and
raises ValueError "User with email {email} already exists". -/
def create (store : Store) (name email : String) (newId : String) (ts : Nat) :
    Except String User × Store :=
  let user : User :=
    { id := newId, name := name, email := email, password_hash := none,
      created_at := ts, updated_at := none }
  if store.any (fun u => u.email == email || u.id == newId) then
    (.error ("User with email " ++ email ++ " already exists"), store)
  else
    (.ok user, store ++ [user])

/-- Embeds `UserRepository.create_with_password`: as create, but the row
carries a bcrypt hash of the password (salt drawn for this call). -/
def create_with_password (store : Store) (name email password : String)
    (newId : String) (ts salt : Nat) : Except String User × Store :=
  let user : User :=
    { id := newId, name := name, email := email,
      password_hash := some { pw := password, salt := salt },
      created_at := ts, updated_at := none }
  if store.any (fun u => u.email == email || u.id == newId) then
    (.error ("User with email " ++ email ++ " already exists"), store)
  else
    (.ok user, store ++ [user])

/-- Embeds `UserRepository.update_password`: loads the user by id; returns
false leaving the store untouched when the user is absent, has no password, or
the current password fails verification; otherwise stores a fresh hash of the
new password (the store stamping updated_at on commit) and returns true. -/
def update_password (store : Store) (user_id current_password new_password : String)
    (salt now : Nat) : Store × Bool :=
  match get_by_id store user_id with
  | none => (store, false)
  | some user =>
    if ! user.has_password || ! user.verify_password current_password then
      (store, false)
    else
      (updateFirst store user_id
        (fun v => { v.set_password new_password salt with updated_at := some now }), true)

/-- Embeds `UserRepository.verify_user_password`: loads by email; absence, a
passwordless account, or failed verification yield None; otherwise the user. -/
def verify_user_password (store : Store) (email password : String) : Option User :=
  match get_by_email store email with
  | none => none
  | some user =>
    if ! user.has_password then none
    else if user.verify_password password then some user
    else none

/-- Embeds `UserRepository.delete`: loads by id; absence yields false, else the
row is removed and true returned. -/
def delete (store : Store) (user_id : String) : Store × Bool :=
  match get_by_id store user_id with
  | none => (store, false)
  | some _ => (store.eraseP (fun u => u.id == user_id), true)

/-- Embeds `UserRepository.list_users`: offset = (page-1)*limit, then a page of
at most limit rows in store order, plus the total row count. -/
def list_users (store : Store) (page limit : Nat) : List User × Nat :=
  let offset := (page - 1) * limit
  ((store.drop offset).take limit, store.length)

end UserRepository

/-- Replacing the first id-match commutes with a primary-key lookup, when the
replacement keeps the id. -/
theorem updateFirst_find (store : Store) (uid : String) (f : User → User)
    (hf : ∀ v, (f v).id = v.id) (u : User)
    (h : store.find? (fun v => v.id == uid) = some u) :
    (updateFirst store uid f).find? (fun v => v.id == uid) = some (f u) := by
  induction store with
  | nil => simp at h
  | cons a rest ih =>
    by_cases ha : (a.id == uid) = true
    · have hfc : (a :: rest).find? (fun v => v.id == uid) = some a :=
        List.find?_cons_of_pos rest ha
      rw [hfc] at h
      injection h with h
      subst h
      have hfa : ((f a).id == uid) = true := by
        rw [hf a]; exact ha
      have h1 : updateFirst (a :: rest) uid f = f a :: rest := by
        simp [updateFirst, ha]
      rw [h1]
      exact List.find?_cons_of_pos rest hfa
    · have hfc : (a :: rest).find? (fun v => v.id == uid)
          = rest.find? (fun v => v.id == uid) :=
        List.find?_cons_of_neg rest ha
      rw [hfc] at h
      have h1 : updateFirst (a :: rest) uid f = a :: updateFirst rest uid f := by
        simp [updateFirst, ha]
      rw [h1]
      have h2 : (a :: updateFirst rest uid f).find? (fun v => v.id == uid)
          = (updateFirst rest uid f).find? (fun v => v.id == uid) :=
        List.find?_cons_of_neg _ ha
      rw [h2]
      exact ih h

/-- Replacing the first id-match is a single List.set at the found index. -/
theorem updateFirst_eq_set (store : Store) (uid : String) (f : User → User) (u : User)
    (h : store.find? (fun v => v.id == uid) = some u) :
    ∃ i, store.get? i = some u ∧ updateFirst store uid f = store.set i (f u) := by
  induction store with
  | nil => simp at h
  | cons a rest ih =>
    by_cases ha : (a.id == uid) = true
    · have hfc : (a :: rest).find? (fun v => v.id == uid) = some a :=
        List.find?_cons_of_pos rest ha
      rw [hfc] at h
      injection h with h
      subst h
      exact ⟨0, rfl, by simp [updateFirst, ha]⟩
    · have hfc : (a :: rest).find? (fun v => v.id == uid)
          = rest.find? (fun v => v.id == uid) :=
        List.find?_cons_of_neg rest ha
      rw [hfc] at h
      obtain ⟨i, h1, h2⟩ := ih h
      refine ⟨i + 1, by simpa using h1, ?_⟩
      simp [updateFirst, ha, h2]

/-- C2. Uniqueness conflict with rollback isolation: when a user with the given
email is already in the store, create and create_with_password both fail with
the ValueError "User with email {email} already exists" and leave the store —
in particular the pre-existing row — exactly as it was. -/
theorem create_conflict (store : Store) (nm em pw newId : String) (ts salt : Nat)
    (h : ∃ u ∈ store, u.email = em) :
    UserRepository.create store nm em newId ts
      = (.error ("User with email " ++ em ++ " already exists"), store)
    ∧ UserRepository.create_with_password store nm em pw newId ts salt
      = (.error ("User with email " ++ em ++ " already exists"), store) := by
  obtain ⟨u, hu, he⟩ := h
  have hany : store.any (fun v => v.email == em || v.id == newId) = true := by
    rw [List.any_eq_true]
    exact ⟨u, hu, by simp [he]⟩
  constructor
  · simp [UserRepository.create, hany]
  · simp [UserRepository.create_with_password, hany]

/-- C2 witness: with Alice already stored under a@b, creating Bob (with or
without password) at that email fails with the ValueError and leaves Alice's
row untouched. -/
theorem create_conflict_witness :
    UserRepository.create
        [{ id := "u1", name := "Alice", email := "a@b", password_hash := none,
           created_at := 0, updated_at := none }] "Bob" "a@b" "u2" 5
      = (.error ("User with email " ++ "a@b" ++ " already exists"),
         [{ id := "u1", name := "Alice", email := "a@b", password_hash := none,
            created_at := 0, updated_at := none }])
    ∧ UserRepository.create_with_password
        [{ id := "u1", name := "Alice", email := "a@b", password_hash := none,
           created_at := 0, updated_at := none }] "Bob" "a@b" "pw" "u2" 5 3
      = (.error ("User with email " ++ "a@b" ++ " already exists"),
         [{ id := "u1", name := "Alice", email := "a@b", password_hash := none,
            created_at := 0, updated_at := none }]) :=
  create_conflict
    [{ id := "u1", name := "Alice", email := "a@b", password_hash := none,
       created_at := 0, updated_at := none }] "Bob" "a@b" "pw" "u2" 5 3
    ⟨{ id := "u1", name := "Alice", email := "a@b", password_hash := none,
       created_at := 0, updated_at := none }, by simp, rfl⟩

/-- C6. Pagination correctness: for a store of N rows and valid page/limit,
list_users returns the rows at offset (page-1)*limit in store order, exactly
min(limit, max(0, N - (page-1)*limit)) of them, together with total = N. -/
theorem list_users_pagination (store : Store) (page limit : Nat)
    (h1 : 1 ≤ page) (h2 : 1 ≤ limit) (h3 : limit ≤ 100) :
    (UserRepository.list_users store page limit).1
      = (store.drop ((page - 1) * limit)).take limit
    ∧ ((UserRepository.list_users store page limit).1.length : Int)
      = min (limit : Int) (max 0 ((store.length : Int) - ((page : Int) - 1) * (limit : Int)))
    ∧ (UserRepository.list_users store page limit).2 = store.length := by
  refine ⟨rfl, ?_, rfl⟩
  have hcast : (((page - 1) * limit : Nat) : Int) = ((page : Int) - 1) * (limit : Int) := by
    have hp : ((page - 1 : Nat) : Int) = (page : Int) - 1 := by omega
    rw [Nat.cast_mul, hp]
  rw [← hcast]
  have hlen : (UserRepository.list_users store page limit).1.length
      = min limit (store.length - (page - 1) * limit) := by
    simp [UserRepository.list_users]
  rw [hlen]
  omega

/-- C6 witness: three users, page 2, limit 2 — one row (the third) comes back
and the total is 3; 1 = min 2 (max 0 (3 - 2)). -/
theorem list_users_pagination_witness :
    (UserRepository.list_users
        [{ id := "u1", name := "A", email := "a@x", password_hash := none,
           created_at := 0, updated_at := none },
         { id := "u2", name := "B", email := "b@x", password_hash := none,
           created_at := 0, updated_at := none },
         { id := "u3", name := "C", email := "c@x", password_hash := none,
           created_at := 0, updated_at := none }] 2 2).1
      = ([{ id := "u1", name := "A", email := "a@x", password_hash := none,
            created_at := 0, updated_at := none },
          { id := "u2", name := "B", email := "b@x", password_hash := none,
            created_at := 0, updated_at := none },
          { id := "u3", name := "C", email := "c@x", password_hash := none,
            created_at := 0, updated_at := none }].drop ((2 - 1) * 2)).take 2
    ∧ ((UserRepository.list_users
        [{ id := "u1", name := "A", email := "a@x", password_hash := none,
           created_at := 0, updated_at := none },
         { id := "u2", name := "B", email := "b@x", password_hash := none,
           created_at := 0, updated_at := none },
         { id := "u3", name := "C", email := "c@x", password_hash := none,
           created_at := 0, updated_at := none }] 2 2).1.length : Int)
      = min (2 : Int) (max 0 ((3 : Int) - ((2 : Int) - 1) * (2 : Int)))
    ∧ (UserRepository.list_users
        [{ id := "u1", name := "A", email := "a@x", password_hash := none,
           created_at := 0, updated_at := none },
         { id := "u2", name := "B", email := "b@x", password_hash := none,
           created_at := 0, updated_at := none },
         { id := "u3", name := "C", email := "c@x", password_hash := none,
           created_at := 0, updated_at := none }] 2 2).2 = 3 :=
  list_users_pagination
    [{ id := "u1", name := "A", email := "a@x", password_hash := none,
       created_at := 0, updated_at := none },
     { id := "u2", name := "B", email := "b@x", password_hash := none,
       created_at := 0, updated_at := none },
     { id := "u3", name := "C", email := "c@x", password_hash := none,
       created_at := 0, updated_at := none }] 2 2 (by decide) (by decide) (by decide)

/-- C7. update_password result semantics: the call returns true exactly when
the user is present with a password whose verification of the current password
succeeds; any false result leaves the store untouched; and on success the
user's row afterwards carries a fresh hash of the new password (with the
update timestamp stamped). -/
theorem update_password_spec (store : Store) (uid cur nw : String) (salt now : Nat) :
    ((UserRepository.update_password store uid cur nw salt now).2 = true
      ↔ ∃ u, UserRepository.get_by_id store uid = some u
          ∧ u.has_password = true ∧ u.verify_password cur = true)
    ∧ ((UserRepository.update_password store uid cur nw salt now).2 = false →
        (UserRepository.update_password store uid cur nw salt now).1 = store)
    ∧ (∀ u, UserRepository.get_by_id store uid = some u →
        u.has_password = true → u.verify_password cur = true →
        UserRepository.get_by_id (UserRepository.update_password store uid cur nw salt now).1 uid
          = some { u with
                   password_hash := some { pw := nw, salt := salt },
                   updated_at := some now }) := by
  cases hfind : UserRepository.get_by_id store uid with
  | none =>
    have hred : UserRepository.update_password store uid cur nw salt now = (store, false) := by
      unfold UserRepository.update_password
      rw [hfind]
    simp only [hred]
    refine ⟨by simp, by simp, ?_⟩
    intro v hv
    exact absurd hv (by simp)
  | some u =>
    cases hhas : u.has_password with
    | false =>
      have hred : UserRepository.update_password store uid cur nw salt now = (store, false) := by
        unfold UserRepository.update_password
        rw [hfind]
        simp [hhas]
      simp only [hred]
      refine ⟨by simp [hhas], by simp, ?_⟩
      intro v hv hhas2 hver2
      injection hv with hv
      subst hv
      exact absurd hhas2 (by simp [hhas])
    | true =>
      cases hver : u.verify_password cur with
      | false =>
        have hred : UserRepository.update_password store uid cur nw salt now
            = (store, false) := by
          unfold UserRepository.update_password
          rw [hfind]
          simp [hhas, hver]
        simp only [hred]
        refine ⟨by simp [hhas, hver], by simp, ?_⟩
        intro v hv hhas2 hver2
        injection hv with hv
        subst hv
        exact absurd hver2 (by simp [hver])
      | true =>
        have hred : UserRepository.update_password store uid cur nw salt now
            = (updateFirst store uid
                (fun w => { w.set_password nw salt with updated_at := some now }), true) := by
          unfold UserRepository.update_password
          rw [hfind]
          simp [hhas, hver]
        simp only [hred]
        refine ⟨by simp [hhas, hver], by simp, ?_⟩
        intro v hv hhas2 hver2
        injection hv with hv
        subst hv
        have hid : ∀ w : User,
            (({ w.set_password nw salt with updated_at := some now } : User)).id = w.id := by
          intro w; rfl
        have hkey := updateFirst_find store uid
          (fun w => { w.set_password nw salt with updated_at := some now }) hid u hfind
        simpa [UserRepository.get_by_id, User.set_password] using hkey

/-- C10. update_password frame: a successful call rewrites exactly one row —
the one found at the user's id — replacing only its password hash and update
timestamp; its id, name, email and creation timestamp, and every other row of
the store, are untouched (the result is a single List.set of the old store). -/
theorem update_password_frame (store : Store) (uid cur nw : String) (salt now : Nat)
    (h : (UserRepository.update_password store uid cur nw salt now).2 = true) :
    ∃ i u, store.get? i = some u ∧ u.id = uid ∧
      (UserRepository.update_password store uid cur nw salt now).1
        = store.set i { u with
                        password_hash := some { pw := nw, salt := salt },
                        updated_at := some now } := by
  cases hfind : UserRepository.get_by_id store uid with
  | none =>
    have hred : UserRepository.update_password store uid cur nw salt now = (store, false) := by
      unfold UserRepository.update_password
      rw [hfind]
    rw [hred] at h
    exact absurd h (by simp)
  | some u =>
    cases hhas : u.has_password with
    | false =>
      have hred : UserRepository.update_password store uid cur nw salt now = (store, false) := by
        unfold UserRepository.update_password
        rw [hfind]
        simp [hhas]
      rw [hred] at h
      exact absurd h (by simp)
    | true =>
      cases hver : u.verify_password cur with
      | false =>
        have hred : UserRepository.update_password store uid cur nw salt now
            = (store, false) := by
          unfold UserRepository.update_password
          rw [hfind]
          simp [hhas, hver]
        rw [hred] at h
        exact absurd h (by simp)
      | true =>
        have hred : UserRepository.update_password store uid cur nw salt now
            = (updateFirst store uid
                (fun w => { w.set_password nw salt with updated_at := some now }), true) := by
          unfold UserRepository.update_password
          rw [hfind]
          simp [hhas, hver]
        simp only [hred]
        obtain ⟨i, h1, h2⟩ := updateFirst_eq_set store uid
          (fun w => { w.set_password nw salt with updated_at := some now }) u hfind
        refine ⟨i, u, h1, ?_, ?_⟩
        · have hp := List.find?_some hfind
          simpa using hp
        · simpa [User.set_password] using h2

/-- C10 witness: Alice stored with password pw1 (salt 7); updating with the
correct current password and new password pw2 (salt 9) at time 42 rewrites
exactly her row. -/
theorem update_password_frame_witness :
    ∃ i u,
      ([{ id := "u1", name := "Alice", email := "a@b",
          password_hash := some { pw := "pw1", salt := 7 },
          created_at := 0, updated_at := none }] : Store).get? i = some u
      ∧ u.id = "u1"
      ∧ (UserRepository.update_password
          [{ id := "u1", name := "Alice", email := "a@b",
             password_hash := some { pw := "pw1", salt := 7 },
             created_at := 0, updated_at := none }] "u1" "pw1" "pw2" 9 42).1
        = ([{ id := "u1", name := "Alice", email := "a@b",
              password_hash := some { pw := "pw1", salt := 7 },
              created_at := 0, updated_at := none }] : Store).set i
            { u with
              password_hash := some { pw := "pw2", salt := 9 },
              updated_at := some 42 } :=
  update_password_frame
    [{ id := "u1", name := "Alice", email := "a@b",
       password_hash := some { pw := "pw1", salt := 7 },
       created_at := 0, updated_at := none }] "u1" "pw1" "pw2" 9 42 (by rfl)

/-- gRPC status codes set by the user service or observed by the client. -/
inductive GStatus where
  | invalidArgument
  | notFound
  | alreadyExists
  | unauthenticated
  | internal
  | unavailable
deriving Repr, DecidableEq

/-- ListUsersResponse message: users page, total, and the effective page and
limit echoed back (proto int32 fields, modelled as Int). -/
structure ListUsersResponse where
  users : List User
  total : Nat
  page : Int
  limit : Int

/-- VerifyUserPasswordResponse message: valid flag plus optional user. -/
structure VerifyUserPasswordResponse where
  valid : Bool
  user : Option User
deriving Repr, DecidableEq

/-- DeleteUserResponse message: the deleted id (proto default ""). -/
structure DeleteUserResponse where
  id : String
deriving Repr, DecidableEq

namespace UserService

/-- Embeds `UserService.ListUsers`: page = max(1, request.page) if page > 0
else 1; limit = max(1, min(100, request.limit)) if limit > 0 else 10; then the
repository is queried with those effective values, which are echoed in the
response alongside the rows and total. -/
def ListUsers (store : Store) (page limit : Int) : ListUsersResponse :=
  let p : Int := if page > 0 then max 1 page else 1
  let l : Int := if limit > 0 then max 1 (min 100 limit) else 10
  let r := UserRepository.list_users store p.toNat l.toNat
  { users := r.1, total := r.2, page := p, limit := l }

/-- Embeds `UserService.VerifyUserPassword`: empty email or password set
INVALID_ARGUMENT before touching the repository; otherwise the repository
verdict is mapped to `valid=true` plus the user, or a bare `valid=false` —
with no status code set in either of those cases. -/
def VerifyUserPassword (store : Store) (email password : String) :
    Option (GStatus × String) × VerifyUserPasswordResponse :=
  if email == "" || password == "" then
    (some (.invalidArgument, "Email and password are required"),
     { valid := false, user := none })
  else
    match UserRepository.verify_user_password store email password with
    | some u => (none, { valid := true, user := some u })
    | none => (none, { valid := false, user := none })

/-- Embeds `UserService.DeleteUser`: empty id sets INVALID_ARGUMENT; a miss
sets NOT_FOUND with an empty response; a hit removes the row and echoes the
id with no status code set. -/
def DeleteUser (store : Store) (uid : String) :
    Option (GStatus × String) × DeleteUserResponse × Store :=
  if uid == "" then
    (some (.invalidArgument, "User ID is required"), { id := "" }, store)
  else
    let r := UserRepository.delete store uid
    if r.2 then (none, { id := uid }, r.1)
    else (some (.notFound, "User with ID " ++ uid ++ " not found"), { id := "" }, r.1)

end UserService

/-- C5. ListUsers pagination clamping: the effective page is 1 when the
requested page is nonpositive and the requested page otherwise; the effective
limit is 10 when nonpositive, 100 when above 100, and the requested limit
otherwise. -/
theorem listusers_clamping (store : Store) (page limit : Int) :
    (UserService.ListUsers store page limit).page = (if page ≤ 0 then 1 else page)
    ∧ (UserService.ListUsers store page limit).limit
      = (if limit ≤ 0 then 10 else if 100 < limit then 100 else limit) := by
  constructor
  · have hp : (UserService.ListUsers store page limit).page
        = if page > 0 then max 1 page else 1 := rfl
    rw [hp]
    split_ifs <;> omega
  · have hl : (UserService.ListUsers store page limit).limit
        = if limit > 0 then max 1 (min 100 limit) else 10 := rfl
    rw [hl]
    split_ifs <;> omega

/-- C9. VerifyUserPassword never signals authentication failure through the
status code: with non-empty email and password, an unknown email, a
passwordless account, and a wrong password all produce the identical OK-status
response — no status code set, valid=false, no user — so the caller cannot
tell the three cases apart. -/
theorem verify_password_rpc_uniform (store : Store) (email password : String)
    (h1 : email ≠ "") (h2 : password ≠ "")
    (h3 : UserRepository.get_by_email store email = none
        ∨ ∃ u, UserRepository.get_by_email store email = some u
            ∧ (u.has_password = false ∨ u.verify_password password = false)) :
    UserService.VerifyUserPassword store email password
      = (none, { valid := false, user := none }) := by
  have hnone : UserRepository.verify_user_password store email password = none := by
    unfold UserRepository.verify_user_password
    rcases h3 with hmiss | ⟨u, hu, hcase⟩
    · rw [hmiss]
    · rw [hu]
      rcases hcase with hnp | hbad
      · simp [hnp]
      · rcases hhp : u.has_password with _ | _
        · simp [hhp]
        · simp [hhp, hbad]
  unfold UserService.VerifyUserPassword
  rw [hnone]
  simp [h1, h2]

/-- C9 witness: on the empty store (unknown email), verifying a@b / pw yields
the OK-status valid=false response. -/
theorem verify_password_rpc_uniform_witness :
    UserService.VerifyUserPassword [] "a@b" "pw"
      = (none, { valid := false, user := none }) :=
  verify_password_rpc_uniform [] "a@b" "pw" (by decide) (by decide)
    (Or.inl rfl)

/-- Outcome of one unary RPC as the client's stub sees it: a response message,
or an RpcError carrying the status code the server set. -/
inductive RpcReply (α : Type) where
  | ok (resp : α)
  | err (code : GStatus)
deriving Repr

/-- How a client coroutine terminates: a value, a raised ValueError (domain
conflict) carrying its message, or a re-raised RPC error. -/
inductive ClientErr where
  | valueError (msg : String)
  | raised (code : GStatus)
deriving Repr, DecidableEq

/-- GetUserById/GetUserByEmail/CreateUser-style responses: an optional user
message (unset reads back as a default instance with id ""). -/
structure UserResponse where
  user : Option User
deriving Repr, DecidableEq

/-- UpdateUserPasswordResponse message: the success flag. -/
structure UpdateUserPasswordResponse where
  success : Bool
deriving Repr, DecidableEq

/-- Embeds `UserServiceClient.get_user_by_id`: a response whose user has a
non-empty id is returned; NOT_FOUND maps to absence; every other RPC error is
re-raised. -/
def clientGetUserById (user_id : String) (reply : RpcReply UserResponse) :
    Except ClientErr (Option User) :=
  match reply with
  | .ok r =>
    .ok (match r.user with
      | some u => if u.id == "" then none else some u
      | none => none)
  | .err code =>
    if code = .notFound then .ok none else .error (.raised code)

/-- Embeds `UserServiceClient.get_user_by_email`: same mapping as by-id. -/
def clientGetUserByEmail (email : String) (reply : RpcReply UserResponse) :
    Except ClientErr (Option User) :=
  match reply with
  | .ok r =>
    .ok (match r.user with
      | some u => if u.id == "" then none else some u
      | none => none)
  | .err code =>
    if code = .notFound then .ok none else .error (.raised code)

/-- Embeds `UserServiceClient.create_user`: ALREADY_EXISTS raises ValueError
"User with email {email} already exists"; every other RPC error is re-raised. -/
def clientCreateUser (name email : String) (reply : RpcReply UserResponse) :
    Except ClientErr (Option User) :=
  match reply with
  | .ok r =>
    .ok (match r.user with
      | some u => if u.id == "" then none else some u
      | none => none)
  | .err code =>
    if code = .alreadyExists then
      .error (.valueError ("User with email " ++ email ++ " already exists"))
    else .error (.raised code)

/-- Embeds `UserServiceClient.create_user_with_password`: same error mapping
as create_user. -/
def clientCreateUserWithPassword (name email password : String)
    (reply : RpcReply UserResponse) : Except ClientErr (Option User) :=
  match reply with
  | .ok r =>
    .ok (match r.user with
      | some u => if u.id == "" then none else some u
      | none => none)
  | .err code =>
    if code = .alreadyExists then
      .error (.valueError ("User with email " ++ email ++ " already exists"))
    else .error (.raised code)

/-- Embeds `UserServiceClient.update_user`: NOT_FOUND maps to absence,
ALREADY_EXISTS raises ValueError with the email, anything else re-raises. -/
def clientUpdateUser (user_id name email : String) (reply : RpcReply UserResponse) :
    Except ClientErr (Option User) :=
  match reply with
  | .ok r =>
    .ok (match r.user with
      | some u => if u.id == "" then none else some u
      | none => none)
  | .err code =>
    if code = .notFound then .ok none
    else if code = .alreadyExists then
      .error (.valueError ("User with email " ++ email ++ " already exists"))
    else .error (.raised code)

/-- Embeds `UserServiceClient.delete_user`: success is a response with a
non-empty id; NOT_FOUND maps to false; anything else re-raises. -/
def clientDeleteUser (user_id : String) (reply : RpcReply DeleteUserResponse) :
    Except ClientErr Bool :=
  match reply with
  | .ok r => .ok (r.id != "")
  | .err code =>
    if code = .notFound then .ok false else .error (.raised code)

/-- Embeds `UserServiceClient.list_users`: any RPC error is re-raised. -/
def clientListUsers (reply : RpcReply ListUsersResponse) :
    Except ClientErr (List User × Nat) :=
  match reply with
  | .ok r => .ok (r.users, r.total)
  | .err _code =>
    .error (.raised _code)

/-- Embeds `UserServiceClient.verify_user_password`: a valid response yields
(true, user); an invalid one (false, none); and every RpcError — whatever its
status code — is swallowed into (false, none), never re-raised. -/
def clientVerifyUserPassword (email password : String)
    (reply : RpcReply VerifyUserPasswordResponse) : Except ClientErr (Bool × Option User) :=
  match reply with
  | .ok r => if r.valid then .ok (true, r.user) else .ok (false, none)
  | .err _ => .ok (false, none)

/-- Embeds `UserServiceClient.update_user_password`: a response yields its
success flag; every RpcError — whatever its status code — is swallowed into
false, never re-raised. -/
def clientUpdateUserPassword (user_id current_password new_password : String)
    (reply : RpcReply UpdateUserPasswordResponse) : Except ClientErr Bool :=
  match reply with
  | .ok r => .ok r.success
  | .err _ => .ok false

/-- C4 counterexample: an UNAVAILABLE RPC failure — neither a not-found nor an
already-exists status — is not propagated by verify_user_password or
update_user_password: both swallow it and return their failure value instead
of raising. -/
theorem client_password_ops_swallow_cex :
    clientVerifyUserPassword "a@b" "pw" (.err .unavailable) = .ok (false, none)
    ∧ clientUpdateUserPassword "u1" "old" "new" (.err .unavailable) = .ok false :=
  ⟨rfl, rfl⟩

/-- C4 amended: the lookup, create, update, delete and list operations follow
the stated contract — NOT_FOUND becomes an absence value without raising,
ALREADY_EXISTS becomes a ValueError carrying the conflicting email, and every
other RPC failure is re-raised — but verify_user_password and
update_user_password never raise: they swallow every RPC error into
(false, none) and false respectively. -/
theorem client_error_contract (uid nm em pw cur nw : String) (code : GStatus) :
    (clientGetUserById uid (.err .notFound) = .ok none)
    ∧ (clientGetUserByEmail em (.err .notFound) = .ok none)
    ∧ (clientUpdateUser uid nm em (.err .notFound) = .ok none)
    ∧ (clientDeleteUser uid (.err .notFound) = .ok false)
    ∧ (clientCreateUser nm em (.err .alreadyExists)
        = .error (.valueError ("User with email " ++ em ++ " already exists")))
    ∧ (clientCreateUserWithPassword nm em pw (.err .alreadyExists)
        = .error (.valueError ("User with email " ++ em ++ " already exists")))
    ∧ (clientUpdateUser uid nm em (.err .alreadyExists)
        = .error (.valueError ("User with email " ++ em ++ " already exists")))
    ∧ (code ≠ .notFound → clientGetUserById uid (.err code) = .error (.raised code))
    ∧ (code ≠ .notFound → clientGetUserByEmail em (.err code) = .error (.raised code))
    ∧ (code ≠ .alreadyExists → clientCreateUser nm em (.err code) = .error (.raised code))
    ∧ (code ≠ .alreadyExists →
        clientCreateUserWithPassword nm em pw (.err code) = .error (.raised code))
    ∧ (code ≠ .notFound → code ≠ .alreadyExists →
        clientUpdateUser uid nm em (.err code) = .error (.raised code))
    ∧ (code ≠ .notFound → clientDeleteUser uid (.err code) = .error (.raised code))
    ∧ (clientListUsers (.err code) = .error (.raised code))
    ∧ (clientVerifyUserPassword em cur (.err code) = .ok (false, none))
    ∧ (clientUpdateUserPassword uid cur nw (.err code) = .ok false) := by
  refine ⟨rfl, rfl, rfl, rfl, rfl, rfl, rfl, ?_, ?_, ?_, ?_, ?_, ?_, rfl, rfl, rfl⟩
  · intro h; simp [clientGetUserById, h]
  · intro h; simp [clientGetUserByEmail, h]
  · intro h; simp [clientCreateUser, h]
  · intro h; simp [clientCreateUserWithPassword, h]
  · intro h1 h2; simp [clientUpdateUser, h1, h2]
  · intro h; simp [clientDeleteUser, h]

/-- HTTP outcome of the administrative delete route. -/
inductive HttpOutcome where
  | noContent
  | badRequest (detail : String)
  | notFoundErr (detail : String)
  | internalError (detail : String)
deriving Repr, DecidableEq

/-- Wire composition of DeleteUser: the stub surfaces a set status code as an
RpcError, otherwise hands the response message to the client. -/
def deleteUserRpc (store : Store) (uid : String) : RpcReply DeleteUserResponse × Store :=
  match UserService.DeleteUser store uid with
  | (none, resp, s2) => (.ok resp, s2)
  | (some (code, _), _, s2) => (.err code, s2)

/-- Embeds `delete_user` from `routers/users.py` composed with the client and
user service: a caller deleting their own id is rejected with HTTP 400 before
any delete is attempted; otherwise the client result False becomes HTTP 404,
True becomes HTTP 204, and a re-raised RPC error becomes HTTP 500. -/
def delete_user_route (store : Store) (current : AuthUser) (uid : String) :
    HttpOutcome × Store :=
  if uid == current.id then
    (.badRequest "Cannot delete your own account via this endpoint. Use DELETE /auth/me instead",
     store)
  else
    let w := deleteUserRpc store uid
    match clientDeleteUser uid w.1 with
    | .ok true => (.noContent, w.2)
    | .ok false => (.notFoundErr ("User with ID " ++ uid ++ " not found"), w.2)
    | .error _ => (.internalError "Error deleting user account", w.2)

/-- C8. Self-delete guard: deleting one's own id via the administrative route
yields HTTP 400 with the store untouched (so the caller's record, if present,
still exists — the user service delete is never reached); deleting a different,
non-empty id with no matching record yields HTTP 404 NotFound, also leaving the
store untouched. -/
theorem delete_route_guard (store : Store) (current : AuthUser) (uid : String) :
    (uid = current.id →
      delete_user_route store current uid
        = (.badRequest
            "Cannot delete your own account via this endpoint. Use DELETE /auth/me instead",
           store))
    ∧ (uid = current.id → ∀ u, UserRepository.get_by_id store current.id = some u →
        UserRepository.get_by_id (delete_user_route store current uid).2 current.id = some u)
    ∧ (uid ≠ current.id → uid ≠ "" → UserRepository.get_by_id store uid = none →
      delete_user_route store current uid
        = (.notFoundErr ("User with ID " ++ uid ++ " not found"), store)) := by
  have hself : uid = current.id →
      delete_user_route store current uid
        = (.badRequest
            "Cannot delete your own account via this endpoint. Use DELETE /auth/me instead",
           store) := by
    intro h
    subst h
    simp [delete_user_route]
  refine ⟨hself, ?_, ?_⟩
  · intro h u hu
    rw [hself h]
    exact hu
  · intro h1 h2 hmiss
    have hbeq : (uid == current.id) = false := by
      simp [h1]
    have hbeq2 : (uid == "") = false := by
      simp [h2]
    simp [delete_user_route, deleteUserRpc, UserService.DeleteUser,
      UserRepository.delete, hbeq, hbeq2, hmiss, clientDeleteUser]
